import Mathlib

/-!
Verification development for the Inventarios liquor-inventory application
(`Inventarios.py` desktop app and its companion REST API).

The embedding models the four relational tables as Lean structures and
lists of rows, SQL aggregate queries as folds over those lists, and each
operation of the application (weight registration, bottle add/remove,
location deletion, the REST handlers) as a pure function from the relevant
state to the new state.  Quantities (`REAL` columns) are modelled as `Rat`;
`INTEGER` ids as `Int`; `TEXT` columns as `String`; nullable columns as
`Option`.  Movement lists are kept in insertion order, which coincides with
`fecha` order since `fecha` defaults to the insertion timestamp.
-/

/-- One row of the `movimientos` table
(`id` and `fecha` are implicit in list position). -/
structure Movimiento where
  producto_id : Int
  user_id : Int
  tipo : String
  cantidad_ml : Rat
  peso_bruto : Option Rat
  notas : String
deriving DecidableEq, Repr

/-- One row of the `locales` table. -/
structure Local where
  id : Int
  nombre : String
  direccion : String
  telefono : String
  activo : Int
deriving DecidableEq, Repr

/-- One row of the `usuarios` table (`local_id` is nullable). -/
structure Usuario where
  id : Int
  username : String
  password : String
  nombre : String
  rol : String
  local_id : Option Int
  activo : Int
deriving DecidableEq, Repr

/-- One row of the `productos` table. -/
structure Producto where
  id : Int
  local_id : Int
  nombre : String
  marca : String
  tipo : String
  densidad : Rat
  capacidad_ml : Rat
  peso_envase : Rat
  activo : Int
  botellas_completas : Int
  minimo_inventario : Rat
deriving DecidableEq, Repr

/-- The rows of `movimientos` belonging to one product:
`WHERE producto_id = p.id`. -/
def movimientosDe (pid : Int) (ms : List Movimiento) : List Movimiento :=
  ms.filter (fun m => m.producto_id == pid)

/-- SQL `SUM` over a column: `NULL` on an empty row set, otherwise the sum
of the values in row order. -/
def sqlSum (xs : List Rat) : Option Rat :=
  match xs with
  | [] => none
  | _ => some (xs.foldl (fun a x => a + x) 0)

/-- The desktop aggregation subquery of `actualizar_inventario`
(Inventarios.py:1534):
`SELECT SUM(cantidad_ml) FROM movimientos WHERE producto_id = p.id`. -/
def total_ml (pid : Int) (ms : List Movimiento) : Option Rat :=
  sqlSum ((movimientosDe pid ms).map (fun m => m.cantidad_ml))

/-- The status computed for one inventory row by `actualizar_inventario`
(Inventarios.py:1561-1578): `"Sin datos"` when `SUM` is `NULL`, `"Bajo"` when
the level is below 20 percent of capacity, else `"OK"`. -/
def estado_producto (p : Producto) (ms : List Movimiento) : String :=
  match total_ml p.id ms with
  | none => "Sin datos"
  | some t => if t < p.capacidad_ml * (1 / 5) then "Bajo" else "OK"

/-- The `total_ml` computed by `GET /api/productos` (API REST.py:27-30):
`COALESCE((SELECT SUM(CASE WHEN tipo = 'entrada' THEN cantidad_ml ELSE
-cantidad_ml END) FROM movimientos WHERE producto_id = p.id), 0)`. -/
def api_total_ml (pid : Int) (ms : List Movimiento) : Rat :=
  (sqlSum ((movimientosDe pid ms).map
    (fun m => if m.tipo == "entrada" then m.cantidad_ml else -m.cantidad_ml))).getD 0

/-- The signed-sum formula as the specification states it: `+cantidad_ml`
for `'entrada'`, `-cantidad_ml` for `'salida'`, and `+cantidad_ml` added
as-is for `'ajuste'` (and any other kind). Stated from the spec's words for
comparison with the queries the code actually runs. -/
def spec_signed_sum (pid : Int) (ms : List Movimiento) : Rat :=
  ((movimientosDe pid ms).map (fun m =>
    if m.tipo == "entrada" then m.cantidad_ml
    else if m.tipo == "salida" then -m.cantidad_ml
    else m.cantidad_ml)).foldl (fun a x => a + x) 0

/-- Total quantity of a product's movements whose kind is `'salida'`. -/
def suma_salida (pid : Int) (ms : List Movimiento) : Rat :=
  (((movimientosDe pid ms).filter (fun m => m.tipo == "salida")).map
    (fun m => m.cantidad_ml)).foldl (fun a x => a + x) 0

/-- Total quantity of a product's movements whose kind is not `'entrada'`. -/
def suma_no_entrada (pid : Int) (ms : List Movimiento) : Rat :=
  (((movimientosDe pid ms).filter (fun m => !(m.tipo == "entrada"))).map
    (fun m => m.cantidad_ml)).foldl (fun a x => a + x) 0

/-- The volume computation of `registrar_peso` (Inventarios.py:1743-1744):
`peso_licor = peso_total - peso_envase; volumen_ml = peso_licor / densidad`. -/
def calcular_volumen (peso_total peso_envase densidad : Rat) : Rat :=
  (peso_total - peso_envase) / densidad

/-- The inflow/outflow classification of `registrar_peso`
(Inventarios.py:1762-1766), reached when the volume is non-negative: with a
prior reading, `"entrada"` iff the difference is strictly positive, else
`"salida"`; `"entrada"` on a first reading. -/
def clasificar_movimiento (volumen : Rat) (ultimo : Option Rat) : String :=
  match ultimo with
  | some u => if volumen - u > 0 then "entrada" else "salida"
  | none => "entrada"

/-- The prior-reading lookup of `registrar_peso` (Inventarios.py:1753-1760):
`SELECT cantidad_ml FROM movimientos WHERE producto_id = ? ORDER BY fecha
DESC LIMIT 1`, i.e. the product's chronologically last movement quantity. -/
def ultimo_ml (pid : Int) (ms : List Movimiento) : Option Rat :=
  ((movimientosDe pid ms).map (fun m => m.cantidad_ml)).getLast?

/-- `registrar_peso` (Inventarios.py:1716-1787) modelled on the movement
table: computes the volume, classifies the movement, and inserts one row
with `cantidad_ml = volumen_ml` and `peso_bruto = peso_total`.  A negative
volume asks the user for confirmation (`confirmar_ajuste`); when declined
the function returns without inserting. -/
def registrar_peso (pid uid : Int) (densidad peso_envase peso_total : Rat)
    (confirmar_ajuste : Bool) (ms : List Movimiento) : List Movimiento :=
  let volumen := calcular_volumen peso_total peso_envase densidad
  let notas := "Registro manual. Peso total: " ++ toString peso_total ++ "g"
  if volumen < 0 then
    if confirmar_ajuste then
      ms ++ [⟨pid, uid, "ajuste", volumen, some peso_total, notas⟩]
    else
      ms
  else
    let tipo := clasificar_movimiento volumen (ultimo_ml pid ms)
    ms ++ [⟨pid, uid, tipo, volumen, some peso_total, notas⟩]

/-- `agregar_botella_completa` (Inventarios.py:1805-1839): increments the
bottle counter and inserts one `'entrada'` movement of the full capacity. -/
def agregar_botella_completa (pid uid : Int) (capacidad : Rat)
    (botellas : Int) (ms : List Movimiento) : Int × List Movimiento :=
  (botellas + 1,
   ms ++ [⟨pid, uid, "entrada", capacidad, none, "Botella completa agregada"⟩])

/-- `quitar_botella_completa` (Inventarios.py:1841-1880): rejected when the
counter is not positive; otherwise decrements the counter and inserts one
`'salida'` movement of the full capacity. -/
def quitar_botella_completa (pid uid : Int) (capacidad : Rat)
    (botellas : Int) (ms : List Movimiento) : Int × List Movimiento :=
  if botellas ≤ 0 then
    (botellas, ms)
  else
    (botellas - 1,
     ms ++ [⟨pid, uid, "salida", capacidad, none, "Botella completa retirada"⟩])

/-- The four tables of the relational file. -/
structure DBState where
  locales : List Local
  usuarios : List Usuario
  productos : List Producto
  movimientos : List Movimiento
deriving DecidableEq, Repr

/-- `eliminar_local` (Inventarios.py:1220-1255): rejected while any product
or user references the location (`SELECT COUNT(*) ... WHERE local_id = ?`),
then asks for confirmation, then `DELETE FROM locales WHERE id = ?`. -/
def eliminar_local (id_local : Int) (confirmacion : Bool) (db : DBState) : DBState :=
  if (db.productos.filter (fun p => p.local_id == id_local)).length > 0 then
    db
  else if (db.usuarios.filter (fun u => u.local_id == some id_local)).length > 0 then
    db
  else if !confirmacion then
    db
  else
    { db with locales := db.locales.filter (fun l => !(l.id == id_local)) }

/-- `POST /api/login` (API REST.py:97-114): `SELECT id, nombre, rol,
local_id FROM usuarios WHERE username = ? AND password = ? AND activo = 1`,
returning the first matching row, else the uniform 401 (`none`). -/
def login (username password : String) (usuarios : List Usuario) :
    Option (Int × String × String × Option Int) :=
  ((usuarios.filter (fun u =>
      u.username == username && u.password == password && u.activo == 1)).head?).map
    (fun u => (u.id, u.nombre, u.rol, u.local_id))

/-- A `POST /api/movimientos` request body: `producto_id`, `user_id`,
`tipo` and `cantidad_ml` are required keys, `peso_bruto` and `notas`
optional (API REST.py:86-91). -/
structure MovRequest where
  producto_id : Int
  user_id : Int
  tipo : String
  cantidad_ml : Rat
  peso_bruto : Option Rat
  notas : Option String
deriving DecidableEq, Repr

/-- `POST /api/movimientos` (API REST.py:80-95): inserts one row built
from the request body as given and returns HTTP 201. -/
def post_movimientos (req : MovRequest) (ms : List Movimiento) :
    List Movimiento × Nat :=
  (ms ++ [⟨req.producto_id, req.user_id, req.tipo, req.cantidad_ml,
           req.peso_bruto, req.notas.getD ""⟩], 201)

/-- Folding addition over a list distributes over the initial accumulator. -/
theorem foldl_add_shift (l : List Rat) (a : Rat) :
    l.foldl (fun x y => x + y) a = a + l.foldl (fun x y => x + y) 0 := by
  induction l generalizing a with
  | nil => simp
  | cons h t ih =>
    simp only [List.foldl_cons]
    rw [ih (a + h), ih (0 + h)]
    ring

/-- Cons step for a mapped additive fold. -/
theorem map_foldl_add_cons (f : Movimiento → Rat) (m : Movimiento) (l : List Movimiento) :
    ((m :: l).map f).foldl (fun x y => x + y) 0 =
      f m + (l.map f).foldl (fun x y => x + y) 0 := by
  simp only [List.map_cons, List.foldl_cons]
  rw [foldl_add_shift]
  ring

/-- The plain column sum run by the desktop query decomposes as the
spec's signed sum plus twice the total of `'salida'` quantities. -/
theorem plain_sum_eq_signed_sum_add (l : List Movimiento) :
    (l.map (fun m => m.cantidad_ml)).foldl (fun x y => x + y) 0 =
      (l.map (fun m =>
        if m.tipo == "entrada" then m.cantidad_ml
        else if m.tipo == "salida" then -m.cantidad_ml
        else m.cantidad_ml)).foldl (fun x y => x + y) 0 +
      2 * ((l.filter (fun m => m.tipo == "salida")).map
        (fun m => m.cantidad_ml)).foldl (fun x y => x + y) 0 := by
  induction l with
  | nil => simp
  | cons m t ih =>
    by_cases hs : m.tipo == "salida"
    · have he : (m.tipo == "entrada") = false := by
        simp only [beq_iff_eq] at hs
        simp [hs]
      simp only [List.filter_cons, hs, if_true, map_foldl_add_cons, ih, he,
        Bool.false_eq_true, if_false]
      ring
    · simp only [List.filter_cons, hs, Bool.false_eq_true, if_false,
        map_foldl_add_cons, ih]
      by_cases he : m.tipo == "entrada"
      · simp only [he, if_true]
        ring
      · simp only [he, hs, Bool.false_eq_true, if_false]
        ring

/-- The API's conditionally-signed sum decomposes as the plain column sum
minus twice the total of quantities whose kind is not `'entrada'`. -/
theorem api_sum_eq_plain_sum_sub (l : List Movimiento) :
    (l.map (fun m =>
      if m.tipo == "entrada" then m.cantidad_ml else -m.cantidad_ml)).foldl
        (fun x y => x + y) 0 =
      (l.map (fun m => m.cantidad_ml)).foldl (fun x y => x + y) 0 -
      2 * ((l.filter (fun m => !(m.tipo == "entrada"))).map
        (fun m => m.cantidad_ml)).foldl (fun x y => x + y) 0 := by
  induction l with
  | nil => simp
  | cons m t ih =>
    by_cases he : m.tipo == "entrada"
    · simp only [List.filter_cons, he, Bool.not_true, Bool.false_eq_true, if_false,
        if_true, map_foldl_add_cons, ih]
      ring
    · simp only [List.filter_cons, he, Bool.not_false, Bool.false_eq_true, if_false,
        if_true, map_foldl_add_cons, ih]
      ring

/-- A SQL `SUM` over at least one row is the fold of the rows. -/
theorem sqlSum_ne_nil (xs : List Rat) (h : xs ≠ []) :
    sqlSum xs = some (xs.foldl (fun x y => x + y) 0) := by
  cases xs with
  | nil => exact absurd rfl h
  | cons a l => rfl

/-- C1 (counterexample): the desktop aggregation query does not compute the
signed sum of the claim.  On a single `'salida'` movement of 100 ml the
query shows 100 while the claimed signed sum is -100. -/
theorem C1_contraejemplo :
    total_ml 1 [⟨1, 1, "salida", 100, none, ""⟩] = some 100 ∧
    spec_signed_sum 1 [⟨1, 1, "salida", 100, none, ""⟩] = -100 ∧
    some (100 : Rat) ≠ some (-100 : Rat) := by
  refine ⟨?_, ?_, by norm_num⟩
  · norm_num [total_ml, movimientosDe, sqlSum]
  · norm_num [spec_signed_sum, movimientosDe]
    decide

/-- C1 (amended): the level shown by the desktop aggregation query is the
plain sum of `cantidad_ml` over the product's movements, every kind added
as-is — equivalently, the spec's signed sum plus twice the total of
`'salida'` quantities (`NULL`/no level when the product has no movement). -/
theorem C1_nivel_suma_plana (pid : Int) (ms : List Movimiento) :
    (movimientosDe pid ms = [] → total_ml pid ms = none) ∧
    (movimientosDe pid ms ≠ [] →
      total_ml pid ms =
        some (spec_signed_sum pid ms + 2 * suma_salida pid ms)) := by
  constructor
  · intro h
    simp [total_ml, h, sqlSum]
  · intro h
    have hm : (movimientosDe pid ms).map (fun m => m.cantidad_ml) ≠ [] := by
      simpa using h
    unfold total_ml
    rw [sqlSum_ne_nil _ hm, plain_sum_eq_signed_sum_add]
    rfl

/-- Witness for C1 (amended) on a concrete one-movement history. -/
theorem C1_nivel_suma_plana_witness :
    movimientosDe 1 [⟨1, 1, "salida", 100, none, ""⟩] ≠ [] ∧
    total_ml 1 [⟨1, 1, "salida", 100, none, ""⟩] =
      some (spec_signed_sum 1 [⟨1, 1, "salida", 100, none, ""⟩] +
        2 * suma_salida 1 [⟨1, 1, "salida", 100, none, ""⟩]) :=
  ⟨by simp [movimientosDe],
   (C1_nivel_suma_plana 1 [⟨1, 1, "salida", 100, none, ""⟩]).2
     (by simp [movimientosDe])⟩

/-- C4 (counterexample): the endpoint and the desktop aggregation do not
agree.  On a single `'salida'` movement of 100 ml the endpoint's `total_ml`
is -100 while the desktop query shows 100. -/
theorem C4_contraejemplo :
    api_total_ml 1 [⟨1, 1, "salida", 100, none, ""⟩] = -100 ∧
    total_ml 1 [⟨1, 1, "salida", 100, none, ""⟩] = some 100 ∧
    (-100 : Rat) ≠ (100 : Rat) := by
  refine ⟨?_, ?_, by norm_num⟩
  · norm_num [api_total_ml, movimientosDe, sqlSum]
    decide
  · norm_num [total_ml, movimientosDe, sqlSum]

/-- C4 (amended): for every product and history, the endpoint's `total_ml`
equals the desktop level (taken as 0 when no movement exists) minus twice
the total quantity of the product's non-`'entrada'` movements; the two
agree exactly when that non-inflow total is zero, not in general. -/
theorem C4_total_api (pid : Int) (ms : List Movimiento) :
    api_total_ml pid ms =
      (total_ml pid ms).getD 0 - 2 * suma_no_entrada pid ms := by
  unfold api_total_ml total_ml suma_no_entrada
  cases hl : movimientosDe pid ms with
  | nil => simp [sqlSum]
  | cons x xs =>
    rw [sqlSum_ne_nil _ (by simp), sqlSum_ne_nil _ (by simp)]
    simp only [Option.getD_some]
    rw [api_sum_eq_plain_sum_sub]

/-- C5 (counterexample): the inventory listing ignores `minimo_inventario`.
A product with `minimo_inventario = 1/2` and `capacidad_ml = 1000` at a
recorded level of 300 ml is below its own threshold (300 < 500) yet the
listing flags it `"OK"`, because the code compares against the hardcoded
fraction 0.2 (300 is not below 200). -/
theorem C5_contraejemplo :
    estado_producto ⟨1, 1, "Ron", "Marca", "ron", 1, 1000, 500, 1, 0, 1 / 2⟩
        [⟨1, 1, "entrada", 300, none, ""⟩] = "OK" ∧
    total_ml 1 [⟨1, 1, "entrada", 300, none, ""⟩] = some 300 ∧
    (300 : Rat) <
      (⟨1, 1, "Ron", "Marca", "ron", 1, 1000, 500, 1, 0, 1 / 2⟩ :
        Producto).minimo_inventario *
      (⟨1, 1, "Ron", "Marca", "ron", 1, 1000, 500, 1, 0, 1 / 2⟩ :
        Producto).capacidad_ml := by
  refine ⟨?_, ?_, by norm_num⟩
  · norm_num [estado_producto, total_ml, movimientosDe, sqlSum]
  · norm_num [total_ml, movimientosDe, sqlSum]

/-- C5 (amended): a product with a recorded level is flagged `"Bajo"`
exactly when that level is below the hardcoded fraction 0.2 of its
`capacidad_ml`; the product's own `minimo_inventario` plays no role. -/
theorem C5_umbral_bajo (p : Producto) (ms : List Movimiento) (t : Rat)
    (h : total_ml p.id ms = some t) :
    (estado_producto p ms = "Bajo" ↔ t < p.capacidad_ml * (1 / 5)) := by
  have hred : estado_producto p ms =
      if t < p.capacidad_ml * (1 / 5) then "Bajo" else "OK" := by
    unfold estado_producto
    rw [h]
  rw [hred]
  constructor
  · intro hB
    by_contra hb
    rw [if_neg hb] at hB
    exact absurd hB (by decide)
  · intro hb
    rw [if_pos hb]

/-- Witness for C5 (amended) on a concrete product and history. -/
theorem C5_umbral_bajo_witness :
    total_ml 1 [⟨1, 1, "entrada", 150, none, ""⟩] = some 150 ∧
    (estado_producto ⟨1, 1, "Ron", "Marca", "ron", 1, 1000, 500, 1, 0, 1 / 5⟩
        [⟨1, 1, "entrada", 150, none, ""⟩] = "Bajo" ↔
      (150 : Rat) < (1000 : Rat) * (1 / 5)) :=
  ⟨by norm_num [total_ml, movimientosDe, sqlSum],
   C5_umbral_bajo ⟨1, 1, "Ron", "Marca", "ron", 1, 1000, 500, 1, 0, 1 / 5⟩
     [⟨1, 1, "entrada", 150, none, ""⟩] 150
     (by norm_num [total_ml, movimientosDe, sqlSum])⟩

/-- C2: with a non-negative computed volume, the derivation returns
`volumen_ml = (peso_total - peso_envase) / densidad`, persists one movement
of that kind, classifies a first reading as `'entrada'`, and with a prior
reading classifies as `'entrada'` iff the difference is strictly positive
and as `'salida'` otherwise (difference 0 included).  Concretely,
`peso_total = 500, peso_envase = 300, densidad = 0.94` yields
`volumen_ml = 10000/47` (within 0.01 of 212.77) classified `'entrada'` on a
first reading, and a new volume 150 against a prior 200 is `'salida'`. -/
theorem C2_derivacion (pid uid : Int) (pt pe d u : Rat) (c : Bool)
    (ms : List Movimiento) (h : 0 ≤ calcular_volumen pt pe d) :
    calcular_volumen pt pe d = (pt - pe) / d ∧
    registrar_peso pid uid d pe pt c ms =
      ms ++ [⟨pid, uid,
        clasificar_movimiento (calcular_volumen pt pe d) (ultimo_ml pid ms),
        calcular_volumen pt pe d, some pt,
        "Registro manual. Peso total: " ++ toString pt ++ "g"⟩] ∧
    clasificar_movimiento (calcular_volumen pt pe d) none = "entrada" ∧
    (calcular_volumen pt pe d - u > 0 →
      clasificar_movimiento (calcular_volumen pt pe d) (some u) = "entrada") ∧
    (¬ calcular_volumen pt pe d - u > 0 →
      clasificar_movimiento (calcular_volumen pt pe d) (some u) = "salida") ∧
    calcular_volumen 500 300 (47 / 50) = 10000 / 47 ∧
    |calcular_volumen 500 300 (47 / 50) - 21277 / 100| < 1 / 100 ∧
    clasificar_movimiento (calcular_volumen 500 300 (47 / 50)) none = "entrada" ∧
    clasificar_movimiento 150 (some 200) = "salida" := by
  refine ⟨rfl, ?_, rfl, ?_, ?_, ?_, ?_, rfl, ?_⟩
  · unfold registrar_peso
    rw [if_neg (not_lt.mpr h)]
  · intro hd
    simp only [clasificar_movimiento]
    rw [if_pos hd]
  · intro hd
    simp only [clasificar_movimiento]
    rw [if_neg hd]
  · norm_num [calcular_volumen]
  · rw [abs_sub_lt_iff]
    constructor <;> norm_num [calcular_volumen]
  · norm_num [clasificar_movimiento]

/-- Witness for C2 at the spec's concrete inputs. -/
theorem C2_derivacion_witness :
    (0 : Rat) ≤ calcular_volumen 500 300 (47 / 50) ∧
    registrar_peso 1 2 (47 / 50) 300 500 true [] =
      [⟨1, 2,
        clasificar_movimiento (calcular_volumen 500 300 (47 / 50))
          (ultimo_ml 1 []),
        calcular_volumen 500 300 (47 / 50), some 500,
        "Registro manual. Peso total: " ++ toString (500 : Rat) ++ "g"⟩] :=
  ⟨by norm_num [calcular_volumen],
   by
    have h := (C2_derivacion 1 2 500 300 (47 / 50) 200 true []
      (by norm_num [calcular_volumen])).2.1
    simpa using h⟩

/-- C3: whenever `registrar_peso` persists a movement, the stored
`cantidad_ml` is the absolute new reading `volumen_ml` (not the delta from
the prior reading) and `peso_bruto` is the measured `peso_total`, for every
classification. -/
theorem C3_lectura_absoluta (pid uid : Int) (d pe pt : Rat) (c : Bool)
    (ms : List Movimiento) (m : Movimiento)
    (h : registrar_peso pid uid d pe pt c ms = ms ++ [m]) :
    m.cantidad_ml = calcular_volumen pt pe d ∧ m.peso_bruto = some pt := by
  unfold registrar_peso at h
  by_cases hneg : calcular_volumen pt pe d < 0
  · rw [if_pos hneg] at h
    cases c with
    | true =>
      simp only [if_true] at h
      have hm := List.append_cancel_left h
      simp only [List.cons.injEq, and_true] at hm
      rw [← hm]
      exact ⟨rfl, rfl⟩
    | false =>
      simp only [Bool.false_eq_true, if_false] at h
      have : ms.length = (ms ++ [m]).length := congrArg List.length h
      simp at this
  · rw [if_neg hneg] at h
    have hm := List.append_cancel_left h
    simp only [List.cons.injEq, and_true] at hm
    rw [← hm]
    exact ⟨rfl, rfl⟩

/-- Witness for C3 on a concrete first-reading registration. -/
theorem C3_lectura_absoluta_witness :
    (⟨1, 2, "entrada", calcular_volumen 500 300 (47 / 50), some 500,
      "Registro manual. Peso total: " ++ toString (500 : Rat) ++ "g"⟩ :
        Movimiento).cantidad_ml = calcular_volumen 500 300 (47 / 50) ∧
    (⟨1, 2, "entrada", calcular_volumen 500 300 (47 / 50), some 500,
      "Registro manual. Peso total: " ++ toString (500 : Rat) ++ "g"⟩ :
        Movimiento).peso_bruto = some 500 :=
  C3_lectura_absoluta 1 2 (47 / 50) 300 500 true []
    ⟨1, 2, "entrada", calcular_volumen 500 300 (47 / 50), some 500,
      "Registro manual. Peso total: " ++ toString (500 : Rat) ++ "g"⟩
    (by norm_num [registrar_peso, calcular_volumen, clasificar_movimiento,
      ultimo_ml, movimientosDe])

/-- C6: a negative computed volume needs explicit confirmation: when
confirmed, the one persisted movement is of kind `'ajuste'`; when declined,
the movement table — and hence every product level — is unchanged. -/
theorem C6_volumen_negativo (pid uid : Int) (d pe pt : Rat)
    (ms : List Movimiento) (h : calcular_volumen pt pe d < 0) :
    registrar_peso pid uid d pe pt true ms =
      ms ++ [⟨pid, uid, "ajuste", calcular_volumen pt pe d, some pt,
        "Registro manual. Peso total: " ++ toString pt ++ "g"⟩] ∧
    registrar_peso pid uid d pe pt false ms = ms ∧
    (∀ q : Int,
      total_ml q (registrar_peso pid uid d pe pt false ms) = total_ml q ms) := by
  have h2 : registrar_peso pid uid d pe pt false ms = ms := by
    unfold registrar_peso
    rw [if_pos h]
    simp
  refine ⟨?_, h2, fun q => by rw [h2]⟩
  unfold registrar_peso
  rw [if_pos h]
  simp

/-- Witness for C6 at the spec's concrete inputs
(`peso_total = 250 < peso_envase = 300`). -/
theorem C6_volumen_negativo_witness :
    calcular_volumen 250 300 (47 / 50) < 0 ∧
    registrar_peso 1 2 (47 / 50) 300 250 false [] = [] :=
  ⟨by norm_num [calcular_volumen],
   (C6_volumen_negativo 1 2 (47 / 50) 300 250 []
     (by norm_num [calcular_volumen])).2.1⟩

/-- C7: adding a complete bottle increments the counter by exactly 1 and
appends one `'entrada'` movement of the full capacity; removing decrements
by exactly 1 and appends one `'salida'` movement of the full capacity, and
is rejected with no state change when the counter is 0. -/
theorem C7_botellas_completas (pid uid : Int) (cap : Rat) (b : Int)
    (ms : List Movimiento) :
    agregar_botella_completa pid uid cap b ms =
      (b + 1,
       ms ++ [⟨pid, uid, "entrada", cap, none, "Botella completa agregada"⟩]) ∧
    (0 < b → quitar_botella_completa pid uid cap b ms =
      (b - 1,
       ms ++ [⟨pid, uid, "salida", cap, none, "Botella completa retirada"⟩])) ∧
    quitar_botella_completa pid uid cap 0 ms = (0, ms) := by
  refine ⟨rfl, ?_, ?_⟩
  · intro hb
    unfold quitar_botella_completa
    rw [if_neg (not_le.mpr hb)]
  · unfold quitar_botella_completa
    rw [if_pos le_rfl]

/-- Witness for C7 at a concrete counter value. -/
theorem C7_botellas_completas_witness :
    (0 : Int) < 3 ∧
    quitar_botella_completa 1 2 750 3 [] =
      (2, [⟨1, 2, "salida", 750, none, "Botella completa retirada"⟩]) ∧
    quitar_botella_completa 1 2 750 0 [] = (0, []) :=
  ⟨by norm_num,
   by
    have h := (C7_botellas_completas 1 2 750 3 []).2.1 (by norm_num)
    simpa using h,
   (C7_botellas_completas 1 2 750 0 []).2.2⟩

/-- C8: deleting a location referenced by at least one product, or by at
least one user, leaves all tables unchanged; deleting a location with no
dependent product and no dependent user (confirmed) removes exactly the
rows of that location id from `locales` and touches no other table. -/
theorem C8_eliminar_local_refs (id_local : Int) (c : Bool) (db : DBState) :
    ((∃ p ∈ db.productos, p.local_id = id_local) →
      eliminar_local id_local c db = db) ∧
    ((∃ u ∈ db.usuarios, u.local_id = some id_local) →
      eliminar_local id_local c db = db) ∧
    ((∀ p ∈ db.productos, p.local_id ≠ id_local) →
     (∀ u ∈ db.usuarios, u.local_id ≠ some id_local) →
      eliminar_local id_local true db =
        { db with locales := db.locales.filter (fun l => !(l.id == id_local)) }) := by
  refine ⟨?_, ?_, ?_⟩
  · rintro ⟨p, hp, hpl⟩
    have hfil : db.productos.filter (fun q => q.local_id == id_local) ≠ [] := by
      intro hnil
      have hcon := List.filter_eq_nil_iff.mp hnil p hp
      rw [hpl] at hcon
      simp at hcon
    unfold eliminar_local
    rw [if_pos (List.length_pos.mpr hfil)]
  · rintro ⟨u, hu, hul⟩
    unfold eliminar_local
    by_cases hp : (db.productos.filter (fun q => q.local_id == id_local)).length > 0
    · rw [if_pos hp]
    · rw [if_neg hp]
      have hfil : db.usuarios.filter (fun v => v.local_id == some id_local) ≠ [] := by
        intro hnil
        have hcon := List.filter_eq_nil_iff.mp hnil u hu
        rw [hul] at hcon
        simp at hcon
      rw [if_pos (List.length_pos.mpr hfil)]
  · intro hP hU
    have h1 : db.productos.filter (fun q => q.local_id == id_local) = [] :=
      List.filter_eq_nil_iff.mpr (fun q hq => by simpa using hP q hq)
    have h2 : db.usuarios.filter (fun v => v.local_id == some id_local) = [] :=
      List.filter_eq_nil_iff.mpr (fun v hv => by simpa using hU v hv)
    unfold eliminar_local
    rw [h1, h2]
    simp

/-- Witness for C8: a location with a dependent product is kept, a
location with no dependents is removed. -/
theorem C8_eliminar_local_refs_witness :
    eliminar_local 1 true
      ⟨[⟨1, "A", "", "", 1⟩, ⟨2, "B", "", "", 1⟩], [],
       [⟨10, 1, "Ron", "Marca", "ron", 1, 1000, 500, 1, 0, 1 / 5⟩], []⟩ =
      ⟨[⟨1, "A", "", "", 1⟩, ⟨2, "B", "", "", 1⟩], [],
       [⟨10, 1, "Ron", "Marca", "ron", 1, 1000, 500, 1, 0, 1 / 5⟩], []⟩ ∧
    eliminar_local 2 true
      ⟨[⟨1, "A", "", "", 1⟩, ⟨2, "B", "", "", 1⟩], [],
       [⟨10, 1, "Ron", "Marca", "ron", 1, 1000, 500, 1, 0, 1 / 5⟩], []⟩ =
      { (⟨[⟨1, "A", "", "", 1⟩, ⟨2, "B", "", "", 1⟩], [],
          [⟨10, 1, "Ron", "Marca", "ron", 1, 1000, 500, 1, 0, 1 / 5⟩], []⟩ :
          DBState) with
        locales := ([⟨1, "A", "", "", 1⟩, ⟨2, "B", "", "", 1⟩] :
          List Local).filter (fun l => !(l.id == 2)) } :=
  ⟨(C8_eliminar_local_refs 1 true _).1
    ⟨⟨10, 1, "Ron", "Marca", "ron", 1, 1000, 500, 1, 0, 1 / 5⟩,
     List.mem_cons_self _ _, rfl⟩,
   (C8_eliminar_local_refs 2 true _).2.2
    (by
      intro p hp
      simp only [List.mem_cons, List.not_mem_nil, or_false] at hp
      rw [hp]
      decide)
    (by
      intro u hu
      simp at hu)⟩

/-- C9: the login endpoint answers with the user record (id, nombre, rol,
local_id) of a stored row exactly when that row matches the submitted
username and password by exact equality and has `activo = 1`; on any other
input — unknown username, wrong password or inactive user alike — the
answer is the same uniform rejection. -/
theorem C9_login_exacto (un pw : String) (us : List Usuario) :
    ((∃ u ∈ us, u.username = un ∧ u.password = pw ∧ u.activo = 1) →
      ∃ r, r ∈ us ∧ r.username = un ∧ r.password = pw ∧ r.activo = 1 ∧
        login un pw us = some (r.id, r.nombre, r.rol, r.local_id)) ∧
    ((¬ ∃ u ∈ us, u.username = un ∧ u.password = pw ∧ u.activo = 1) →
      login un pw us = none) := by
  constructor
  · rintro ⟨u, hu, h1, h2, h3⟩
    have hfil : us.filter
        (fun v => v.username == un && v.password == pw && v.activo == 1) ≠ [] := by
      intro hnil
      have hcon := List.filter_eq_nil_iff.mp hnil u hu
      rw [h1, h2, h3] at hcon
      simp at hcon
    cases hfl : us.filter
        (fun v => v.username == un && v.password == pw && v.activo == 1) with
    | nil => exact absurd hfl hfil
    | cons r rs =>
      have hrmem : r ∈ us.filter
          (fun v => v.username == un && v.password == pw && v.activo == 1) := by
        rw [hfl]
        exact List.mem_cons_self r rs
      have hr1 := (List.mem_filter.mp hrmem).1
      have hr2 := (List.mem_filter.mp hrmem).2
      simp only [Bool.and_eq_true, beq_iff_eq] at hr2
      refine ⟨r, hr1, hr2.1.1, hr2.1.2, hr2.2, ?_⟩
      unfold login
      rw [hfl]
      rfl
  · intro hno
    have hfil : us.filter
        (fun v => v.username == un && v.password == pw && v.activo == 1) = [] := by
      refine List.filter_eq_nil_iff.mpr (fun v hv hpred => ?_)
      simp only [Bool.and_eq_true, beq_iff_eq] at hpred
      exact hno ⟨v, hv, hpred.1.1, hpred.1.2, hpred.2⟩
    unfold login
    rw [hfil]
    rfl

/-- Witness for C9 on the bootstrap admin row: exact credentials log in,
wrong credentials get the uniform rejection. -/
theorem C9_login_exacto_witness :
    (∃ r, r ∈ [(⟨1, "admin", "admin123", "Administrador", "admin", some 1, 1⟩ :
        Usuario)] ∧
      r.username = "admin" ∧ r.password = "admin123" ∧ r.activo = 1 ∧
      login "admin" "admin123"
        [⟨1, "admin", "admin123", "Administrador", "admin", some 1, 1⟩] =
        some (r.id, r.nombre, r.rol, r.local_id)) ∧
    login "admin" "incorrecta"
      [⟨1, "admin", "admin123", "Administrador", "admin", some 1, 1⟩] = none :=
  ⟨(C9_login_exacto "admin" "admin123"
      [⟨1, "admin", "admin123", "Administrador", "admin", some 1, 1⟩]).1
    ⟨⟨1, "admin", "admin123", "Administrador", "admin", some 1, 1⟩,
     List.mem_cons_self _ _, rfl, rfl, rfl⟩,
   (C9_login_exacto "admin" "incorrecta"
      [⟨1, "admin", "admin123", "Administrador", "admin", some 1, 1⟩]).2
    (by
      rintro ⟨u, hu, h1, h2, h3⟩
      simp only [List.mem_cons, List.not_mem_nil, or_false] at hu
      rw [hu] at h2
      simp at h2)⟩

/-- C10: the movement-creation endpoint validates nothing: every request
body is inserted as given — kind outside {entrada, salida, ajuste},
negative or zero quantity, and arbitrary product/user ids included — and
the handler answers 201. -/
theorem C10_sin_validacion (req : MovRequest) (ms : List Movimiento) :
    (post_movimientos req ms).2 = 201 ∧
    (∃ m : Movimiento, (post_movimientos req ms).1 = ms ++ [m] ∧
      m.producto_id = req.producto_id ∧ m.user_id = req.user_id ∧
      m.tipo = req.tipo ∧ m.cantidad_ml = req.cantidad_ml ∧
      m.peso_bruto = req.peso_bruto) ∧
    (post_movimientos ⟨-7, -8, "tipo-desconocido", -5, none, none⟩ []).1 =
      [⟨-7, -8, "tipo-desconocido", -5, none, ""⟩] :=
  ⟨rfl,
   ⟨⟨req.producto_id, req.user_id, req.tipo, req.cantidad_ml, req.peso_bruto,
      req.notas.getD ""⟩, rfl, rfl, rfl, rfl, rfl, rfl⟩,
   rfl⟩
